import Mathlib

/-!
Verification of the fis-playground CRUD microservice core: entity
validation, the storage-port error taxonomy, and the request handlers.
The Go source is shallowly embedded: strings are Lean strings with Go
byte lengths, machine time is a Nat parameter, and the DynamoDB table
is an association list with the conditional-write semantics the adapter
relies on (put-if-absent, update-if-exists, delete-if-exists).
-/

namespace FisPlayground

/-! ## Go string helpers -/

/-- Unicode white-space predicate used by the Go standard library
function unicode.IsSpace (the White_Space property). -/
def goIsSpace (c : Char) : Bool :=
  c.val = 0x20 || (0x9 ≤ c.val && c.val ≤ 0xD) || c.val = 0x85 || c.val = 0xA0 ||
  c.val = 0x1680 || (0x2000 ≤ c.val && c.val ≤ 0x200A) || c.val = 0x2028 ||
  c.val = 0x2029 || c.val = 0x202F || c.val = 0x205F || c.val = 0x3000

/-- Model of strings.TrimSpace: drop white space from both ends. -/
def goTrimSpace (s : String) : String :=
  (((s.toList.dropWhile goIsSpace).reverse.dropWhile goIsSpace).reverse).asString

/-- Model of the Go builtin len on a string: the UTF-8 byte count. -/
def goLen (s : String) : Nat :=
  s.utf8ByteSize

/-- Naive substring scan over characters, mirroring findSubstring in
the handlers package and containsSubstring in the repository package
(byte-level search in Go coincides with character-level search because
UTF-8 is self-synchronizing). -/
def findSub (sub : List Char) : List Char → Bool
  | [] => sub.isEmpty
  | c :: t => sub.isPrefixOf (c :: t) || findSub sub t

/-- Model of the handlers-package contains: length guard plus scan. -/
def strContains (s sub : String) : Bool :=
  sub.toList.length ≤ s.toList.length && findSub sub.toList s.toList

/-- Model of the repository-package contains (errors.go): equality,
prefix, suffix or inner occurrence, guarded by the length comparison. -/
def repoContains (s sub : String) : Bool :=
  sub.toList.length ≤ s.toList.length &&
    (s == sub ||
      (sub.toList.length < s.toList.length &&
        (sub.toList.isPrefixOf s.toList || sub.toList.isSuffixOf s.toList ||
          findSub sub.toList s.toList)))

/-- Model of containsValidationError (errors.go): keyword scan over the
message, case-sensitive as in the source. -/
def containsValidationError (errMsg : String) : Bool :=
  ["ValidationException", "validation", "invalid", "malformed", "bad request"].any
    fun kw => 0 < errMsg.length && repoContains errMsg kw

/-- ASCII lower-casing of one character, as in toLower of the handlers
package (only bytes between A and Z are shifted). -/
def asciiToLower (c : Char) : Char :=
  if 65 ≤ c.val && c.val ≤ 90 then Char.ofNat (c.toNat + 32) else c

/-- Model of toLower (handlers package). -/
def lowerStr (s : String) : String :=
  (s.toList.map asciiToLower).asString

/-- Model of containsAnyKeyword (handlers package): case-insensitive
keyword containment. -/
def containsAnyKeyword (message : String) (keywords : List String) : Bool :=
  keywords.any fun kw => strContains (lowerStr message) (lowerStr kw)

/-- Model of containsThroughputError (handlers package). -/
def containsThroughputError (errMsg : String) : Bool :=
  containsAnyKeyword errMsg ["throughput", "capacity", "throttling", "rate"]

/-- Accumulate decimal digits into a natural number. -/
def digitsToNat (digits : List Char) : Nat :=
  digits.foldl (fun a c => a * 10 + (c.toNat - 48)) 0

/-- Model of strconv.Atoi on a 64-bit platform: optional sign, decimal
digits, error on empty input, stray characters or int64 overflow. -/
def goAtoi (s : String) : Option Int :=
  match s.toList with
  | [] => none
  | c :: rest =>
    let (neg, digits) :=
      if c = '+' then (false, rest)
      else if c = '-' then (true, rest)
      else (false, c :: rest)
    if digits.isEmpty then none
    else if digits.all Char.isDigit then
      let v := digitsToNat digits
      if neg then
        if v ≤ 2 ^ 63 then some (-(v : Int)) else none
      else
        if v ≤ 2 ^ 63 - 1 then some (v : Int) else none
    else none

/-! ## Entity and validation (internal/models/item.go) -/

/-- Item entity; timestamps are model time (Nat). -/
structure Item where
  id : String
  name : String
  description : String
  createdAt : Nat
  updatedAt : Nat
  status : String
deriving DecidableEq, Repr

/-- Request payload for creating an item. -/
structure CreateItemRequest where
  name : String
  description : String
deriving DecidableEq, Repr

/-- Request payload for updating an item; empty string means absent. -/
structure UpdateItemRequest where
  name : String
  description : String
  status : String
deriving DecidableEq, Repr

/-- The five validation error values of the models package. -/
inductive ValidationError where
  | emptyName
  | emptyDescription
  | invalidStatus
  | nameTooLong
  | descriptionTooLong
deriving DecidableEq, Repr

/-- Message text of each validation error value. -/
def ValidationError.message : ValidationError → String
  | .emptyName => "name cannot be empty"
  | .emptyDescription => "description cannot be empty"
  | .invalidStatus => "status must be one of: active, inactive, pending"
  | .nameTooLong => "name cannot exceed 100 characters"
  | .descriptionTooLong => "description cannot exceed 500 characters"

/-- Model of isValidStatus: membership in the allowed status list. -/
def isValidStatus (status : String) : Bool :=
  ["active", "inactive", "pending"].any fun v => status == v

/-- Model of CreateItemRequest.Validate: none means valid. -/
def CreateItemRequest.validate (r : CreateItemRequest) : Option ValidationError :=
  if goTrimSpace r.name = "" then some .emptyName
  else if 100 < goLen r.name then some .nameTooLong
  else if goTrimSpace r.description = "" then some .emptyDescription
  else if 500 < goLen r.description then some .descriptionTooLong
  else none

/-- Model of UpdateItemRequest.Validate: each field checked only when
non-empty. -/
def UpdateItemRequest.validate (r : UpdateItemRequest) : Option ValidationError :=
  if r.name ≠ "" ∧ goTrimSpace r.name = "" then some .emptyName
  else if r.name ≠ "" ∧ 100 < goLen r.name then some .nameTooLong
  else if r.description ≠ "" ∧ goTrimSpace r.description = "" then some .emptyDescription
  else if r.description ≠ "" ∧ 500 < goLen r.description then some .descriptionTooLong
  else if r.status ≠ "" ∧ isValidStatus r.status = false then some .invalidStatus
  else none

/-- Model of Item.Validate. -/
def Item.validate (i : Item) : Option ValidationError :=
  if goTrimSpace i.name = "" then some .emptyName
  else if 100 < goLen i.name then some .nameTooLong
  else if goTrimSpace i.description = "" then some .emptyDescription
  else if 500 < goLen i.description then some .descriptionTooLong
  else if isValidStatus i.status = false then some .invalidStatus
  else none

/-- Model of NewItem: default status active, both timestamps now, no id. -/
def NewItem (name description : String) (now : Nat) : Item :=
  { id := ""
    name := name
    description := description
    status := "active"
    createdAt := now
    updatedAt := now }

/-- Model of Item.UpdateFields: copy non-empty fields of the patch and
refresh the updated timestamp. -/
def Item.updateFields (i : Item) (req : UpdateItemRequest) (now : Nat) : Item :=
  { i with
    name := if req.name ≠ "" then req.name else i.name
    description := if req.description ≠ "" then req.description else i.description
    status := if req.status ≠ "" then req.status else i.status
    updatedAt := now }

/-! ## Repository errors (internal/repository/errors.go) -/

/-- Classification of a repository error: which sentinel error it wraps
(errors.Is succeeds on exactly one of the five sentinels, because each
wrapped error is built with a single percent-w verb), or unclassified
when it wraps none. -/
inductive RepoErrorKind where
  | itemNotFound
  | itemAlreadyExists
  | invalidInput
  | connectionFailed
  | operationFailed
  | unclassified
deriving DecidableEq, Repr

/-- A repository-layer error: its sentinel classification plus the full
message text returned by the Error method. -/
structure RepoError where
  kind : RepoErrorKind
  msg : String
deriving DecidableEq, Repr

/-- Sentinel ErrItemNotFound. -/
def errItemNotFound : RepoError := ⟨.itemNotFound, "item not found"⟩

/-- Sentinel ErrItemAlreadyExists. -/
def errItemAlreadyExists : RepoError := ⟨.itemAlreadyExists, "item already exists"⟩

/-- Sentinel ErrInvalidInput. -/
def errInvalidInput : RepoError := ⟨.invalidInput, "invalid input"⟩

/-- Sentinel ErrConnectionFailed. -/
def errConnectionFailed : RepoError := ⟨.connectionFailed, "database connection failed"⟩

/-- Sentinel ErrOperationFailed. -/
def errOperationFailed : RepoError := ⟨.operationFailed, "database operation failed"⟩

/-- Model of wrapping with a percent-w, percent-s format: same
classification, message extended by a colon and the extra text. -/
def RepoError.wrap (base : RepoError) (extra : String) : RepoError :=
  ⟨base.kind, base.msg ++ ": " ++ extra⟩

/-- Model of IsNotFoundError (errors.Is against ErrItemNotFound). -/
def IsNotFoundError (e : RepoError) : Bool := e.kind == .itemNotFound

/-- Model of IsConflictError. -/
def IsConflictError (e : RepoError) : Bool := e.kind == .itemAlreadyExists

/-- Model of IsValidationError. -/
def IsValidationError (e : RepoError) : Bool := e.kind == .invalidInput

/-- Model of IsConnectionError. -/
def IsConnectionError (e : RepoError) : Bool := e.kind == .connectionFailed

/-- Model of IsOperationError. -/
def IsOperationError (e : RepoError) : Bool := e.kind == .operationFailed

/-- The DynamoDB client errors distinguished by HandleDynamoDBError:
the five matched exception types plus a generic error carrying only a
message. -/
inductive DynamoDBError where
  | resourceNotFound (msg : String)
  | conditionalCheckFailed (msg : String)
  | provisionedThroughputExceeded (msg : String)
  | resourceInUse (msg : String)
  | internalServerError (msg : String)
  | generic (msg : String)
deriving DecidableEq, Repr

/-- Message text of a DynamoDB client error. -/
def DynamoDBError.errMsg : DynamoDBError → String
  | .resourceNotFound m => m
  | .conditionalCheckFailed m => m
  | .provisionedThroughputExceeded m => m
  | .resourceInUse m => m
  | .internalServerError m => m
  | .generic m => m

/-- Model of HandleDynamoDBError (errors.go) on a non-nil error. -/
def HandleDynamoDBError (e : DynamoDBError) : RepoError :=
  match e with
  | .resourceNotFound m => errItemNotFound.wrap m
  | .conditionalCheckFailed _ => errItemAlreadyExists.wrap "conditional check failed"
  | .provisionedThroughputExceeded _ => errOperationFailed.wrap "throughput exceeded"
  | .resourceInUse _ => errOperationFailed.wrap "resource in use"
  | .internalServerError _ => errOperationFailed.wrap "internal server error"
  | .generic m =>
    if containsValidationError m then errInvalidInput.wrap m
    else errOperationFailed.wrap m

/-! ## The DynamoDB table and the repository (internal/repository/dynamodb.go) -/

/-- The table contents: an association list from id to item. -/
abbrev Store := List (String × Item)

/-- Lookup by id. -/
def storeFind (s : Store) (id : String) : Option Item :=
  match s with
  | [] => none
  | (k, it) :: t => if k = id then some it else storeFind t id

/-- Remove an id. -/
def storeDelete (s : Store) (id : String) : Store :=
  s.filter fun p => p.1 ≠ id

/-- Model of DynamoDBRepository.CreateItem: generate the id when
absent, validate, then a conditional put that fails when the id
already exists. The fresh uuid value is a parameter of the model. -/
def repoCreateItem (store : Store) (genId : String) (item : Item) :
    Except RepoError (Store × Item) :=
  let item := if item.id = "" then { item with id := genId } else item
  match item.validate with
  | some ve => .error (errInvalidInput.wrap ve.message)
  | none =>
    match storeFind store item.id with
    | some _ => .error (errItemAlreadyExists.wrap "item with this ID already exists")
    | none => .ok ((item.id, item) :: store, item)

/-- Model of DynamoDBRepository.GetItem: empty id is invalid input, a
missing row is the bare ErrItemNotFound sentinel. -/
def repoGetItem (store : Store) (id : String) : Except RepoError Item :=
  if id = "" then .error (errInvalidInput.wrap "item ID cannot be empty")
  else
    match storeFind store id with
    | none => .error errItemNotFound
    | some it => .ok it

/-- Options for listing items (limit is the int32 field of the Go
struct; the pagination token is opaque). -/
structure ListItemsOptions where
  limit : Int
  lastEvaluatedKey : Option String
deriving DecidableEq, Repr

/-- Result of a list call. -/
structure ListItemsResult where
  items : List Item
  lastEvaluatedKey : Option String
  hasMore : Bool
deriving DecidableEq, Repr

/-- Model of DynamoDBRepository.ListItems: defensive clamping of the
limit to one through one hundred (non-positive becomes fifty), then a
scan returning one page; the store reports a continuation key exactly
when rows remain beyond the page. -/
def repoListItems (store : Store) (options : Option ListItemsOptions) : ListItemsResult :=
  let opts : ListItemsOptions := match options with
    | none => ⟨50, none⟩
    | some o => o
  let limit : Int := if opts.limit ≤ 0 then 50 else if 100 < opts.limit then 100 else opts.limit
  let page := store.take limit.toNat
  let lek := if limit.toNat < store.length then some "last-evaluated-key" else none
  { items := page.map (·.2), lastEvaluatedKey := lek, hasMore := lek ≠ none }

/-- Model of DynamoDBRepository.UpdateItem: empty id is invalid input,
the patch is validated, the write carries the condition
attribute_exists(id), and the update expression sets updated_at always
plus each non-empty patch field; a failed condition surfaces as the
ConditionalCheckFailedException of the client, translated by
HandleDynamoDBError. -/
def repoUpdateItem (store : Store) (id : String) (updates : UpdateItemRequest)
    (now : Nat) : Except RepoError (Store × Item) :=
  if id = "" then .error (errInvalidInput.wrap "item ID cannot be empty")
  else
    match updates.validate with
    | some ve => .error (errInvalidInput.wrap ve.message)
    | none =>
      match storeFind store id with
      | none => .error (HandleDynamoDBError (.conditionalCheckFailed "ConditionalCheckFailedException"))
      | some old =>
        let updated : Item :=
          { old with
            name := if updates.name ≠ "" then updates.name else old.name
            description := if updates.description ≠ "" then updates.description else old.description
            status := if updates.status ≠ "" then updates.status else old.status
            updatedAt := now }
        .ok ((id, updated) :: storeDelete store id, updated)

/-- Model of DynamoDBRepository.DeleteItem: empty id is invalid input;
the write carries the condition attribute_exists(id), so deleting an
absent id surfaces the ConditionalCheckFailedException of the client,
translated by HandleDynamoDBError. -/
def repoDeleteItem (store : Store) (id : String) : Except RepoError Store :=
  if id = "" then .error (errInvalidInput.wrap "item ID cannot be empty")
  else
    match storeFind store id with
    | none => .error (HandleDynamoDBError (.conditionalCheckFailed "ConditionalCheckFailedException"))
    | some _ => .ok (storeDelete store id)

/-! ## API error taxonomy (handlers/errors source file) -/

/-- Error categories of the handlers package. -/
inductive ErrorType where
  | validation
  | notFound
  | conflict
  | database
  | system
  | authentication
  | rateLimit
deriving DecidableEq, Repr

/-- Wire string of each error category. -/
def ErrorType.str : ErrorType → String
  | .validation => "validation"
  | .notFound => "not_found"
  | .conflict => "conflict"
  | .database => "database"
  | .system => "system"
  | .authentication => "authentication"
  | .rateLimit => "rate_limit"

/-- Specific error codes of the handlers package. -/
inductive ErrorCode where
  | invalidRequest
  | missingField
  | invalidFormat
  | valueTooLong
  | invalidValue
  | notFound
  | alreadyExists
  | databaseError
  | connectionError
  | operationFailed
  | throughputExceeded
  | internalError
  | serviceUnavailable
  | timeout
  | unauthorized
  | forbidden
  | rateLimitExceeded
deriving DecidableEq, Repr

/-- Wire string of each error code. -/
def ErrorCode.str : ErrorCode → String
  | .invalidRequest => "INVALID_REQUEST"
  | .missingField => "MISSING_FIELD"
  | .invalidFormat => "INVALID_FORMAT"
  | .valueTooLong => "VALUE_TOO_LONG"
  | .invalidValue => "INVALID_VALUE"
  | .notFound => "NOT_FOUND"
  | .alreadyExists => "ALREADY_EXISTS"
  | .databaseError => "DATABASE_ERROR"
  | .connectionError => "CONNECTION_ERROR"
  | .operationFailed => "OPERATION_FAILED"
  | .throughputExceeded => "THROUGHPUT_EXCEEDED"
  | .internalError => "INTERNAL_ERROR"
  | .serviceUnavailable => "SERVICE_UNAVAILABLE"
  | .timeout => "TIMEOUT"
  | .unauthorized => "UNAUTHORIZED"
  | .forbidden => "FORBIDDEN"
  | .rateLimitExceeded => "RATE_LIMIT_EXCEEDED"

/-- Structured API error with its HTTP status code. -/
structure APIError where
  type : ErrorType
  code : ErrorCode
  message : String
  details : String
  statusCode : Nat
deriving DecidableEq, Repr

/-- Model of NewValidationError. -/
def NewValidationError (code : ErrorCode) (message details : String) : APIError :=
  ⟨.validation, code, message, details, 400⟩

/-- Model of MapRepositoryError: switch over the classification
predicates of the repository error, in source order. -/
def MapRepositoryError (e : RepoError) : APIError :=
  if IsNotFoundError e then
    ⟨.notFound, .notFound, "Resource not found", e.msg, 404⟩
  else if IsConflictError e then
    ⟨.conflict, .alreadyExists, "Resource already exists", e.msg, 409⟩
  else if IsValidationError e then
    ⟨.validation, .invalidRequest, "Invalid input provided", e.msg, 400⟩
  else if IsConnectionError e then
    ⟨.database, .connectionError, "Database connection failed",
      "Unable to connect to the database", 503⟩
  else if IsOperationError e then
    if containsThroughputError e.msg then
      ⟨.database, .throughputExceeded, "Database throughput exceeded",
        "Please retry your request after a brief delay", 429⟩
    else
      ⟨.database, .databaseError, "Database operation failed", e.msg, 500⟩
  else
    ⟨.system, .internalError, "An unexpected error occurred",
      "Please try again later", 500⟩

/-- Model of MapValidationError: first-match keyword classification of
the message text. -/
def MapValidationError (message : String) : APIError :=
  let code :=
    if containsAnyKeyword message ["empty", "required"] then ErrorCode.missingField
    else if containsAnyKeyword message ["too long", "exceed"] then ErrorCode.valueTooLong
    else if containsAnyKeyword message ["invalid", "format"] then ErrorCode.invalidFormat
    else if containsAnyKeyword message ["status", "one of"] then ErrorCode.invalidValue
    else ErrorCode.invalidRequest
  ⟨.validation, code, message, "", 400⟩

/-! ## Response envelope (internal/models/item.go, handlers) -/

/-- ErrorInfo block of the envelope. -/
structure ErrorInfo where
  code : String
  message : String
  type : String
  details : String
deriving DecidableEq, Repr

/-- The data payload shapes the handlers produce: a single item, the
list page, or a string-keyed object (acknowledgements and health). -/
inductive ResponseData where
  | item (i : Item)
  | itemList (items : List Item) (hasMore : Bool) (count : Nat) (nextToken : Option String)
  | kv (fields : List (String × String))
deriving DecidableEq, Repr

/-- The uniform APIResponse envelope. -/
structure APIResponse where
  success : Bool
  data : Option ResponseData
  error : Option ErrorInfo
deriving DecidableEq, Repr

/-- An HTTP response: status code plus envelope body. -/
structure HttpResponse where
  statusCode : Nat
  body : APIResponse
deriving DecidableEq, Repr

/-- Model of WriteErrorResponse: failure envelope carrying the error
block, written with the status of the API error. -/
def WriteErrorResponse (e : APIError) : HttpResponse :=
  ⟨e.statusCode,
    { success := false
      data := none
      error := some ⟨e.code.str, e.message, e.type.str, e.details⟩ }⟩

/-- Success envelope carrying a data payload, as built inline by each
handler before writeJSONResponse. -/
def writeSuccessResponse (status : Nat) (d : ResponseData) : HttpResponse :=
  ⟨status, { success := true, data := some d, error := none }⟩

/-- Model of the APIError built by WriteJSONParseErrorResponse. -/
def jsonParseError : APIError :=
  ⟨.validation, .invalidFormat, "Invalid JSON format",
    "Request body contains malformed JSON", 400⟩

/-- Model of the APIError built by WriteMissingParameterErrorResponse. -/
def missingParameterError (parameter : String) : APIError :=
  ⟨.validation, .missingField, parameter ++ " is required",
    "The required parameter \x27" ++ parameter ++ "\x27 is missing from the request",
    400⟩

/-! ## Request handlers (handlers source file) -/

/-- Model of ItemHandler.CreateItem: parse (none is malformed JSON),
validate, construct the item, store it; the fresh uuid and the clock
are parameters. -/
def CreateItemHandler (store : Store) (genId : String) (now : Nat)
    (body : Option CreateItemRequest) : Store × HttpResponse :=
  match body with
  | none => (store, WriteErrorResponse jsonParseError)
  | some req =>
    match req.validate with
    | some ve => (store, WriteErrorResponse (MapValidationError ve.message))
    | none =>
      let item := NewItem req.name req.description now
      match repoCreateItem store genId item with
      | .error e => (store, WriteErrorResponse (MapRepositoryError e))
      | .ok (store2, created) => (store2, writeSuccessResponse 201 (.item created))

/-- Model of ItemHandler.GetItem. -/
def GetItemHandler (store : Store) (id : String) : HttpResponse :=
  if id = "" then WriteErrorResponse (missingParameterError "Item ID")
  else
    match repoGetItem store id with
    | .error e => WriteErrorResponse (MapRepositoryError e)
    | .ok it => writeSuccessResponse 200 (.item it)

/-- Limit-parameter parsing of ItemHandler.ListItems: the default of
fifty, a non-integer value rejected as invalid format, a value outside
one through one hundred rejected as invalid value. An absent query
parameter reads as the empty string. -/
def parseListLimit (limitStr : String) : Except APIError ListItemsOptions :=
  if limitStr = "" then .ok ⟨50, none⟩
  else
    match goAtoi limitStr with
    | none =>
      .error (NewValidationError .invalidFormat "Invalid limit parameter"
        "Limit must be a valid integer")
    | some limit =>
      if limit ≤ 0 ∨ 100 < limit then
        .error (NewValidationError .invalidValue "Invalid limit value"
          "Limit must be between 1 and 100")
      else .ok ⟨limit, none⟩

/-- Model of ItemHandler.ListItems. -/
def ListItemsHandler (store : Store) (limitStr : String) : HttpResponse :=
  match parseListLimit limitStr with
  | .error e => WriteErrorResponse e
  | .ok options =>
    let result := repoListItems store (some options)
    writeSuccessResponse 200
      (.itemList result.items result.hasMore result.items.length
        (if result.hasMore then some "pagination_token_placeholder" else none))

/-- Model of ItemHandler.UpdateItem. -/
def UpdateItemHandler (store : Store) (id : String)
    (body : Option UpdateItemRequest) (now : Nat) : Store × HttpResponse :=
  if id = "" then (store, WriteErrorResponse (missingParameterError "Item ID"))
  else
    match body with
    | none => (store, WriteErrorResponse jsonParseError)
    | some req =>
      match req.validate with
      | some ve => (store, WriteErrorResponse (MapValidationError ve.message))
      | none =>
        match repoUpdateItem store id req now with
        | .error e => (store, WriteErrorResponse (MapRepositoryError e))
        | .ok (store2, it) => (store2, writeSuccessResponse 200 (.item it))

/-- Model of ItemHandler.DeleteItem: the acknowledgement payload has
the keys message and id. -/
def DeleteItemHandler (store : Store) (id : String) : Store × HttpResponse :=
  if id = "" then (store, WriteErrorResponse (missingParameterError "Item ID"))
  else
    match repoDeleteItem store id with
    | .error e => (store, WriteErrorResponse (MapRepositoryError e))
    | .ok store2 =>
      (store2, writeSuccessResponse 200
        (.kv [("message", "Item deleted successfully"), ("id", id)]))

/-- Model of ItemHandler.HealthCheck. -/
def HealthCheckHandler : HttpResponse :=
  writeSuccessResponse 200 (.kv [("status", "healthy"), ("service", "FIS Playground API")])

/-- Model of ItemHandler.HealthCheckDB: the connectivity probe outcome
is a parameter; on failure the envelope has success false, a data
payload and no error block. -/
def HealthCheckDBHandler (healthy : Bool) (errMsg tableName : String) : HttpResponse :=
  let status := if healthy then "healthy" else "unhealthy"
  let message := if healthy then "Connected" else errMsg
  let code := if healthy then 200 else 503
  ⟨code,
    { success := healthy
      data := some (.kv [("status", status), ("service", "DynamoDB"),
        ("message", message), ("tableName", tableName)])
      error := none }⟩

/-- A parsed request to one of the routed item endpoints (the routing
layer is external; the plain health check is also routed). -/
inductive Request where
  | create (body : Option CreateItemRequest)
  | get (id : String)
  | list (limitStr : String)
  | update (id : String) (body : Option UpdateItemRequest)
  | del (id : String)
  | health
deriving DecidableEq, Repr

/-- Dispatch a request to its handler. -/
def handleRequest (store : Store) (genId : String) (now : Nat) :
    Request → Store × HttpResponse
  | .create body => CreateItemHandler store genId now body
  | .get id => (store, GetItemHandler store id)
  | .list limitStr => (store, ListItemsHandler store limitStr)
  | .update id body => UpdateItemHandler store id body now
  | .del id => DeleteItemHandler store id
  | .health => (store, HealthCheckHandler)

/-- Mutual exclusivity of payload and error in an envelope: success
carries data and no error, failure carries an error and no data. -/
def envelopeExclusive (r : APIResponse) : Prop :=
  (r.success = true → r.data.isSome ∧ r.error = none) ∧
  (r.success = false → r.error.isSome ∧ r.data = none)

/-! ## Spec-side comparison tables -/

/-- Keyword rule of the spec taxonomy for throughput classification,
amended to include the keyword rate that the source also matches
(case-insensitive substring, as in the source). -/
def specTaxonomyThroughputHit (msg : String) : Bool :=
  containsAnyKeyword msg ["throughput", "capacity", "throttling", "rate"]

/-- HTTP status table of the spec taxonomy (spec section 4.3). -/
def specTaxonomyStatus (e : RepoError) : Nat :=
  match e.kind with
  | .itemNotFound => 404
  | .itemAlreadyExists => 409
  | .invalidInput => 400
  | .connectionFailed => 503
  | .operationFailed => if specTaxonomyThroughputHit e.msg then 429 else 500
  | .unclassified => 500

/-- Error-code table of the spec taxonomy. -/
def specTaxonomyCode (e : RepoError) : ErrorCode :=
  match e.kind with
  | .itemNotFound => .notFound
  | .itemAlreadyExists => .alreadyExists
  | .invalidInput => .invalidRequest
  | .connectionFailed => .connectionError
  | .operationFailed =>
    if specTaxonomyThroughputHit e.msg then .throughputExceeded else .databaseError
  | .unclassified => .internalError

/-- Error-type table of the spec taxonomy. -/
def specTaxonomyType (e : RepoError) : ErrorType :=
  match e.kind with
  | .itemNotFound => .notFound
  | .itemAlreadyExists => .conflict
  | .invalidInput => .validation
  | .connectionFailed => .database
  | .operationFailed => .database
  | .unclassified => .system

/-- Keyword table of the spec for validation-message classification,
first match wins, matching case-insensitive as in the source. -/
def specValidationCode (message : String) : ErrorCode :=
  if containsAnyKeyword message ["empty", "required"] then .missingField
  else if containsAnyKeyword message ["too long", "exceed"] then .valueTooLong
  else if containsAnyKeyword message ["invalid", "format"] then .invalidFormat
  else if containsAnyKeyword message ["status", "one of"] then .invalidValue
  else .invalidRequest

/-- A sample stored item used by the concrete observations. -/
def sampleItem : Item :=
  ⟨"item-1", "Test Item", "d", 0, 0, "active"⟩

/-! ## Helper lemmas -/

theorem createValidate_none_iff (r : CreateItemRequest) :
    r.validate = none ↔
      (goTrimSpace r.name ≠ "" ∧ goLen r.name ≤ 100 ∧
       goTrimSpace r.description ≠ "" ∧ goLen r.description ≤ 500) := by
  unfold CreateItemRequest.validate
  split_ifs with h1 h2 h3 h4 <;> simp_all

theorem itemValidate_none_iff (i : Item) :
    i.validate = none ↔
      (goTrimSpace i.name ≠ "" ∧ goLen i.name ≤ 100 ∧
       goTrimSpace i.description ≠ "" ∧ goLen i.description ≤ 500 ∧
       isValidStatus i.status = true) := by
  unfold Item.validate
  split_ifs with h1 h2 h3 h4 h5 <;> simp_all

theorem envelopeExclusive_error (e : APIError) :
    envelopeExclusive (WriteErrorResponse e).body := by
  constructor
  · intro h; simp [WriteErrorResponse] at h
  · intro _; simp [WriteErrorResponse]

theorem envelopeExclusive_success (s : Nat) (d : ResponseData) :
    envelopeExclusive (writeSuccessResponse s d).body := by
  constructor
  · intro _; simp [writeSuccessResponse]
  · intro h; simp [writeSuccessResponse] at h

/-! ## Claim theorems -/

/-- C7: ValidateCreate accepts a request exactly when the name is
non-blank after trimming and at most one hundred raw bytes of the
untrimmed string, and the description is non-blank after trimming and
at most five hundred raw bytes of the untrimmed string; trimming is
used only for the emptiness test, never for the length test (the Go
builtin len counts the raw bytes of the untrimmed value). -/
theorem validateCreate_iff (r : CreateItemRequest) :
    r.validate = none ↔
      (goTrimSpace r.name ≠ "" ∧ goLen r.name ≤ 100 ∧
       goTrimSpace r.description ≠ "" ∧ goLen r.description ≤ 500) :=
  createValidate_none_iff r

/-- Witness for C7 at a concrete request whose name carries untrimmed
whitespace counted by the length check. -/
theorem validateCreate_iff_witness :
    (CreateItemRequest.mk " Test Item " "d").validate = none :=
  (validateCreate_iff (CreateItemRequest.mk " Test Item " "d")).2 (by decide)

/-- C10: for every non-nil client error, the repository error produced
by HandleDynamoDBError is never classified as a connection failure: it
always wraps one of the not-found, already-exists, invalid-input or
operation-failed sentinels, so the 503 CONNECTION_ERROR branch of
MapRepositoryError is unreachable from the translator. -/
theorem handleDynamoDBError_not_connection (e : DynamoDBError) :
    IsConnectionError (HandleDynamoDBError e) = false ∧
    ((HandleDynamoDBError e).kind = .itemNotFound ∨
     (HandleDynamoDBError e).kind = .itemAlreadyExists ∨
     (HandleDynamoDBError e).kind = .invalidInput ∨
     (HandleDynamoDBError e).kind = .operationFailed) ∧
    (MapRepositoryError (HandleDynamoDBError e)).statusCode ≠ 503 ∧
    (MapRepositoryError (HandleDynamoDBError e)).code ≠ .connectionError := by
  cases e <;>
    simp only [HandleDynamoDBError, RepoError.wrap, errItemNotFound,
      errItemAlreadyExists, errInvalidInput, errOperationFailed,
      MapRepositoryError, IsNotFoundError, IsConflictError, IsValidationError,
      IsConnectionError, IsOperationError] <;>
    split_ifs <;> simp_all

/-- Witness for C10 at a concrete generic client error. -/
theorem handleDynamoDBError_not_connection_witness :
    IsConnectionError (HandleDynamoDBError (.generic "socket closed")) = false :=
  (handleDynamoDBError_not_connection (.generic "socket closed")).1

/-- C3 (amended): MapRepositoryError realises the spec taxonomy table
once the throughput keyword list is amended to include rate: not-found
maps to 404, conflict to 409, validation to 400, connection failure to
503, an operation failure whose message contains a throughput,
capacity, throttling or rate keyword (case-insensitive substring) to
429 THROUGHPUT_EXCEEDED, any other operation failure to 500
DATABASE_ERROR, and an unclassified error to 500 system
INTERNAL_ERROR. -/
theorem mapRepositoryError_matches_taxonomy (e : RepoError) :
    (MapRepositoryError e).statusCode = specTaxonomyStatus e ∧
    (MapRepositoryError e).code = specTaxonomyCode e ∧
    (MapRepositoryError e).type = specTaxonomyType e := by
  obtain ⟨k, m⟩ := e
  cases k <;>
    simp only [MapRepositoryError, IsNotFoundError, IsConflictError,
      IsValidationError, IsConnectionError, IsOperationError,
      specTaxonomyStatus, specTaxonomyCode, specTaxonomyType,
      specTaxonomyThroughputHit, containsThroughputError] <;>
    split_ifs <;> simp_all

/-- Witness for C3 at a concrete connection failure. -/
theorem mapRepositoryError_matches_taxonomy_witness :
    (MapRepositoryError ⟨.connectionFailed, "database connection failed"⟩).statusCode =
      specTaxonomyStatus ⟨.connectionFailed, "database connection failed"⟩ :=
  (mapRepositoryError_matches_taxonomy ⟨.connectionFailed, "database connection failed"⟩).1

/-- Counterexample for C3 as stated: this operation-failure message
contains none of the keywords throughput, capacity, throttling, yet
the source maps it to 429 THROUGHPUT_EXCEEDED rather than 500
DATABASE_ERROR, because the source keyword list also matches rate
(here inside the word migrate). -/
theorem mapRepositoryError_rate_keyword_cx :
    containsAnyKeyword "database operation failed: migrate step aborted"
        ["throughput", "capacity", "throttling"] = false ∧
    (MapRepositoryError
        ⟨.operationFailed, "database operation failed: migrate step aborted"⟩).statusCode = 429 ∧
    (MapRepositoryError
        ⟨.operationFailed, "database operation failed: migrate step aborted"⟩).code =
      .throughputExceeded := by
  decide

/-- C5: MapValidationError always yields a 400 validation-type error
carrying the original message, with the code classified by the spec
keyword table (first match wins: empty or required give MISSING_FIELD,
too long or exceed give VALUE_TOO_LONG, invalid or format give
INVALID_FORMAT, status or one of give INVALID_VALUE, anything else
INVALID_REQUEST); in particular the invalid-status validation error
produced by an update carrying status invalid_status yields 400 with
code INVALID_VALUE and type validation. -/
theorem mapValidationError_classification :
    (∀ m : String,
      (MapValidationError m).type = .validation ∧
      (MapValidationError m).statusCode = 400 ∧
      (MapValidationError m).message = m ∧
      (MapValidationError m).code = specValidationCode m) ∧
    (UpdateItemRequest.mk "" "" "invalid_status").validate = some .invalidStatus ∧
    MapValidationError (ValidationError.invalidStatus).message =
      ⟨.validation, .invalidValue,
        "status must be one of: active, inactive, pending", "", 400⟩ := by
  refine ⟨fun m => ?_, by decide, by decide⟩
  unfold MapValidationError specValidationCode
  split_ifs <;> simp

/-- Witness for C5 at a concrete message. -/
theorem mapValidationError_classification_witness :
    (MapValidationError "name cannot be empty").code =
      specValidationCode "name cannot be empty" :=
  (mapValidationError_classification.1 "name cannot be empty").2.2.2

/-- C4: an omitted limit parameter reaches storage as the default of
fifty; a value the integer parser rejects is answered 400 with code
INVALID_FORMAT before reaching storage; a parsed integer outside one
through one hundred is answered 400 with code INVALID_VALUE before
reaching storage (both error responses are independent of the store). -/
theorem listLimit_validation :
    parseListLimit "" = .ok ⟨50, none⟩ ∧
    (∀ (s : String) (store : Store), s ≠ "" → goAtoi s = none →
      ListItemsHandler store s =
        WriteErrorResponse (NewValidationError .invalidFormat "Invalid limit parameter"
          "Limit must be a valid integer")) ∧
    (∀ (s : String) (n : Int) (store : Store), s ≠ "" → goAtoi s = some n →
      (n ≤ 0 ∨ 100 < n) →
      ListItemsHandler store s =
        WriteErrorResponse (NewValidationError .invalidValue "Invalid limit value"
          "Limit must be between 1 and 100")) := by
  refine ⟨rfl, ?_, ?_⟩
  · intro s store hs hnone
    simp [ListItemsHandler, parseListLimit, hs, hnone]
  · intro s n store hs hsome hrange
    have h : parseListLimit s =
        .error (NewValidationError .invalidValue "Invalid limit value"
          "Limit must be between 1 and 100") := by
      unfold parseListLimit
      rw [if_neg hs, hsome]
      simp only [if_pos hrange]
    simp [ListItemsHandler, h]

/-- Witness for C4 at the concrete limits abc, 0 and 101. -/
theorem listLimit_validation_witness :
    ListItemsHandler [] "abc" =
      WriteErrorResponse (NewValidationError .invalidFormat "Invalid limit parameter"
        "Limit must be a valid integer") ∧
    ListItemsHandler [] "0" =
      WriteErrorResponse (NewValidationError .invalidValue "Invalid limit value"
        "Limit must be between 1 and 100") ∧
    ListItemsHandler [] "101" =
      WriteErrorResponse (NewValidationError .invalidValue "Invalid limit value"
        "Limit must be between 1 and 100") ∧
    parseListLimit "" = .ok ⟨50, none⟩ :=
  ⟨listLimit_validation.2.1 "abc" [] (by decide) (by decide),
   listLimit_validation.2.2 "0" 0 [] (by decide) (by decide) (Or.inl (by decide)),
   listLimit_validation.2.2 "101" 101 [] (by decide) (by decide) (Or.inr (by decide)),
   listLimit_validation.1⟩

/-- C2: for every create request whose name is non-blank after
trimming and at most one hundred bytes and whose description is
non-blank after trimming and at most five hundred bytes, the create
pipeline succeeds with status 201, and the returned item carries the
generated non-empty identifier, status active and equal creation and
update timestamps (the generated uuid is a model parameter, assumed
non-empty and fresh). -/
theorem create_valid_request_succeeds (store : Store) (genId : String) (now : Nat)
    (req : CreateItemRequest)
    (hgen : genId ≠ "") (hfresh : storeFind store genId = none)
    (hn1 : goTrimSpace req.name ≠ "") (hn2 : goLen req.name ≤ 100)
    (hd1 : goTrimSpace req.description ≠ "") (hd2 : goLen req.description ≤ 500) :
    (CreateItemHandler store genId now (some req)).2.statusCode = 201 ∧
    (CreateItemHandler store genId now (some req)).2.body.success = true ∧
    ∃ it : Item,
      (CreateItemHandler store genId now (some req)).2.body.data = some (.item it) ∧
      it.id ≠ "" ∧ it.status = "active" ∧ it.createdAt = it.updatedAt := by
  have hv : req.validate = none :=
    (createValidate_none_iff req).2 ⟨hn1, hn2, hd1, hd2⟩
  have hiv : (Item.mk genId req.name req.description now now "active").validate = none :=
    (itemValidate_none_iff _).2
      ⟨hn1, hn2, hd1, hd2, (by decide : isValidStatus "active" = true)⟩
  have key : CreateItemHandler store genId now (some req) =
      ((genId, ⟨genId, req.name, req.description, now, now, "active"⟩) :: store,
       writeSuccessResponse 201
         (.item ⟨genId, req.name, req.description, now, now, "active"⟩)) := by
    simp [CreateItemHandler, hv, repoCreateItem, NewItem, hiv, hfresh,
      writeSuccessResponse]
  rw [key]
  exact ⟨rfl, rfl, ⟨genId, req.name, req.description, now, now, "active"⟩,
    rfl, hgen, rfl, rfl⟩

/-- Witness for C2 at a concrete request and a fresh uuid. -/
theorem create_valid_request_succeeds_witness :
    (CreateItemHandler [] "550e8400-e29b-41d4-a716-446655440000" 7
        (some (CreateItemRequest.mk "Test Item" "d"))).2.statusCode = 201 ∧
    (CreateItemHandler [] "550e8400-e29b-41d4-a716-446655440000" 7
        (some (CreateItemRequest.mk "Test Item" "d"))).2.body.success = true ∧
    ∃ it : Item,
      (CreateItemHandler [] "550e8400-e29b-41d4-a716-446655440000" 7
          (some (CreateItemRequest.mk "Test Item" "d"))).2.body.data = some (.item it) ∧
      it.id ≠ "" ∧ it.status = "active" ∧ it.createdAt = it.updatedAt :=
  create_valid_request_succeeds [] "550e8400-e29b-41d4-a716-446655440000" 7
    (CreateItemRequest.mk "Test Item" "d")
    (by decide) rfl (by decide) (by decide) (by decide) (by decide)

/-- C6: for every valid patch applied to an existing item through the
repository update, only the fields present (non-empty) in the patch
are modified: an absent name, description or status keeps its prior
value, a present one is written; the identifier and the creation
timestamp never change, the update timestamp is refreshed to the
update time for every patch whatsoever (so it is strictly greater than
the creation timestamp whenever the clock advanced since creation),
and the written item agrees with Item.UpdateFields applied to the same
patch. -/
theorem update_frame_all_patches (store : Store) (id : String) (old : Item)
    (req : UpdateItemRequest) (now : Nat)
    (hid : id ≠ "") (hfound : storeFind store id = some old)
    (hval : req.validate = none) (hnow : old.createdAt < now) :
    ∃ it : Item,
      repoUpdateItem store id req now = .ok ((id, it) :: storeDelete store id, it) ∧
      (req.name = "" → it.name = old.name) ∧
      (req.description = "" → it.description = old.description) ∧
      (req.status = "" → it.status = old.status) ∧
      (req.name ≠ "" → it.name = req.name) ∧
      (req.description ≠ "" → it.description = req.description) ∧
      (req.status ≠ "" → it.status = req.status) ∧
      it.id = old.id ∧
      it.createdAt = old.createdAt ∧
      it.updatedAt = now ∧
      it.createdAt < it.updatedAt ∧
      old.updateFields req now = it := by
  refine ⟨{ old with
      name := if req.name ≠ "" then req.name else old.name
      description := if req.description ≠ "" then req.description else old.description
      status := if req.status ≠ "" then req.status else old.status
      updatedAt := now },
    ?_, ?_, ?_, ?_, ?_, ?_, ?_, rfl, rfl, rfl, hnow, rfl⟩
  · simp only [repoUpdateItem, if_neg hid, hval, hfound]
  · intro h; simp [h]
  · intro h; simp [h]
  · intro h; simp [h]
  · intro h; simp [h]
  · intro h; simp [h]
  · intro h; simp [h]

/-- Witness for C6 at a concrete store and the status-only patch of
the spec scenario. -/
theorem update_frame_all_patches_witness :
    ∃ it : Item,
      repoUpdateItem [("item-1", sampleItem)] "item-1" ⟨"", "", "inactive"⟩ 9 =
        .ok (("item-1", it) :: storeDelete [("item-1", sampleItem)] "item-1", it) ∧
      it.name = sampleItem.name ∧
      it.description = sampleItem.description ∧
      it.status = "inactive" ∧
      it.createdAt < it.updatedAt := by
  obtain ⟨it, h1, h2, h3, h4, h5, h6, h7, h8, h9, h10, h11, h12⟩ :=
    update_frame_all_patches [("item-1", sampleItem)] "item-1" sampleItem
      ⟨"", "", "inactive"⟩ 9 (by decide) (by decide) (by decide) (by decide)
  exact ⟨it, h1, h2 rfl, h3 rfl, h7 (by decide), h11⟩

/-- C1 observed behaviour: deleting an existing id answers 200, but
repeating the delete once the id is absent answers 409 ALREADY_EXISTS
with type conflict, and so does an update of an absent id — not the
404 NOT_FOUND the claim, the spec and the integration tests expect.
The existence condition of the conditional write fails with the
ConditionalCheckFailedException of the client, and HandleDynamoDBError
translates every such exception to the already-exists sentinel. -/
theorem delete_update_absent_conflict_observed :
    (DeleteItemHandler [("item-1", sampleItem)] "item-1").2.statusCode = 200 ∧
    (DeleteItemHandler ((DeleteItemHandler [("item-1", sampleItem)] "item-1").1)
        "item-1").2.statusCode = 409 ∧
    (DeleteItemHandler ((DeleteItemHandler [("item-1", sampleItem)] "item-1").1)
        "item-1").2.body.error =
      some ⟨"ALREADY_EXISTS", "Resource already exists", "conflict",
        "item already exists: conditional check failed"⟩ ∧
    (UpdateItemHandler [] "missing-id" (some ⟨"", "", "inactive"⟩) 5).2.statusCode = 409 ∧
    (UpdateItemHandler [] "missing-id" (some ⟨"", "", "inactive"⟩) 5).2.body.error =
      some ⟨"ALREADY_EXISTS", "Resource already exists", "conflict",
        "item already exists: conditional check failed"⟩ ∧
    IsNotFoundError (HandleDynamoDBError
      (.conditionalCheckFailed "ConditionalCheckFailedException")) = false := by
  decide

/-- C8 observed behaviour: a successful delete answers 200 with a
success envelope whose acknowledgement payload carries the keys
message and id — there is no deleted_id key, although the README
documents one. -/
theorem delete_ack_payload_observed :
    (DeleteItemHandler [("item-1", sampleItem)] "item-1").2.statusCode = 200 ∧
    (DeleteItemHandler [("item-1", sampleItem)] "item-1").2.body.success = true ∧
    (DeleteItemHandler [("item-1", sampleItem)] "item-1").2.body.data =
      some (.kv [("message", "Item deleted successfully"), ("id", "item-1")]) ∧
    ([("message", "Item deleted successfully"), ("id", "item-1")].lookup
      "deleted_id" = (none : Option String)) ∧
    ([("message", "Item deleted successfully"), ("id", "item-1")].lookup
      "id" = some "item-1") := by
  decide

/-- Counterexample for C9 as stated: the DB health-check handler, when
the connectivity probe fails, emits an envelope with success false, a
data payload and no error object, violating the mutual-exclusivity
form of the claim. -/
theorem healthCheckDB_envelope_cx :
    (HealthCheckDBHandler false "connection refused" "items-table").body.success = false ∧
    (HealthCheckDBHandler false "connection refused" "items-table").body.error = none ∧
    (HealthCheckDBHandler false "connection refused" "items-table").body.data ≠ none ∧
    (HealthCheckDBHandler false "connection refused" "items-table").statusCode = 503 := by
  decide

/-- C9 (amended): every response envelope produced by the routed item
handlers (create, get, list, update, delete) and the plain health
check satisfies mutual exclusivity: success true carries a data
payload and no error object, success false carries an error object and
no data payload. The DB health-check handler is excluded: on probe
failure it emits success false with a data payload and no error. -/
theorem crud_envelope_exclusive (store : Store) (genId : String) (now : Nat)
    (req : Request) :
    envelopeExclusive (handleRequest store genId now req).2.body := by
  cases req <;>
    simp only [handleRequest, CreateItemHandler, GetItemHandler, ListItemsHandler,
      UpdateItemHandler, DeleteItemHandler, HealthCheckHandler] <;>
    repeat' split
  all_goals
    first
      | exact envelopeExclusive_error _
      | exact envelopeExclusive_success _ _

/-- Witness for C9 at a concrete request. -/
theorem crud_envelope_exclusive_witness :
    envelopeExclusive (handleRequest [] "uuid-1" 0 (.del "absent-id")).2.body :=
  crud_envelope_exclusive [] "uuid-1" 0 (.del "absent-id")

end FisPlayground
